import Mathlib

/-!
Verification of the card-transaction record validation and partition engine
(`src/lambda/models.py` and `src/lambda/app.py`).

The Python code validates each raw CSV row (a mapping from field name to
string) with a pydantic model `CardTransaction`, collecting one structured
error per violated field, and partitions a batch into a valid JSONL stream
and an invalid JSONL stream.

The shallow embedding below translates that logic into Lean:
  * a `RawRow` is an association list of field name to string value
    (the CSV `DictReader` row), looked up by first match;
  * pydantic's per-field pipeline (type coercion, then `Field` constraints,
    then the declared `field_validator`s, first failure wins within a field,
    all fields checked independently and the failures concatenated in field
    declaration order) is spelled out per field;
  * the ISO-8601 timestamp parsing that pydantic performs for a `datetime`
    field is implemented over the character list (date, optional time,
    optional UTC offset `Z` / `+HH:MM` / `+HHMM` / `+HH`);
  * `json.dumps` and pydantic's `mode="json"` datetime rendering are
    implemented as string builders (UTC rendered with the `Z` designator).
-/

/-- Characters that Python's `str.strip()` removes (ASCII whitespace). -/
def isPySpace (c : Char) : Bool :=
  c = ' ' || c = '\t' || c = '\n' || c = '\r' || c = '\x0b' || c = '\x0c'

/-- Python `str.strip()`: drop whitespace from both ends. -/
def pyStrip (s : String) : String :=
  String.mk (((s.toList.dropWhile isPySpace).reverse.dropWhile isPySpace).reverse)

/-- Decimal digit value of a character, if it is a digit. -/
def digitVal (c : Char) : Option Nat :=
  if c.isDigit then some (c.toNat - 48) else none

/-- Value of a non-empty all-digit character list, read in base 10. -/
def natOfDigits (cs : List Char) : Option Nat :=
  match cs with
  | [] => none
  | _ => cs.foldl
      (fun acc c =>
        match acc, digitVal c with
        | some a, some d => some (10 * a + d)
        | _, _ => none)
      (some 0)

/-- Python's `int(str)` as pydantic applies it to a string field value:
surrounding whitespace stripped, an optional sign, then decimal digits. -/
def parseIntStr (s : String) : Option Int :=
  match (pyStrip s).toList with
  | '+' :: rest => (natOfDigits rest).map Int.ofNat
  | '-' :: rest => (natOfDigits rest).map (fun n => -(n : Int))
  | cs => (natOfDigits cs).map Int.ofNat

/-- A parsed Python `datetime`: calendar fields plus an optional UTC offset
in minutes (`none` models `tzinfo is None`, a naive timestamp). -/
structure PyDateTime where
  year : Nat
  month : Nat
  day : Nat
  hour : Nat
  minute : Nat
  second : Nat
  microsecond : Nat
  offset : Option Int
deriving DecidableEq, Repr

/-- Parse exactly two decimal digits. -/
def parse2 (cs : List Char) : Option (Nat × List Char) :=
  match cs with
  | a :: b :: rest =>
    match digitVal a, digitVal b with
    | some x, some y => some (10 * x + y, rest)
    | _, _ => none
  | _ => none

/-- Parse exactly four decimal digits. -/
def parse4 (cs : List Char) : Option (Nat × List Char) :=
  match cs with
  | a :: b :: c :: d :: rest =>
    match digitVal a, digitVal b, digitVal c, digitVal d with
    | some w, some x, some y, some z => some (1000 * w + 100 * x + 10 * y + z, rest)
    | _, _, _, _ => none
  | _ => none

/-- Split a leading run of decimal digits off a character list. -/
def takeDigits : List Char → (List Nat × List Char)
  | [] => ([], [])
  | c :: rest =>
    match digitVal c with
    | some d =>
      let (ds, r) := takeDigits rest
      (d :: ds, r)
    | none => ([], c :: rest)

/-- Microseconds encoded by the digits after the decimal point
(first six digits, right-padded with zeros). -/
def microOfDigits (ds : List Nat) : Nat :=
  ((ds.take 6) ++ List.replicate (6 - ds.length) 0).foldl (fun a d => 10 * a + d) 0

/-- Whether `y` is a leap year (Gregorian rule). -/
def isLeapYear (y : Nat) : Bool :=
  y % 4 = 0 && (y % 100 ≠ 0 || y % 400 = 0)

/-- Number of days in month `m` of year `y`. -/
def daysInMonth (y m : Nat) : Nat :=
  if m = 2 then (if isLeapYear y then 29 else 28)
  else if m = 4 || m = 6 || m = 9 || m = 11 then 30
  else 31

/-- Parse `YYYY-MM-DD` with range validation, returning the rest. -/
def parseDate (cs : List Char) : Option (Nat × Nat × Nat × List Char) :=
  match parse4 cs with
  | none => none
  | some (y, r1) =>
    match r1 with
    | '-' :: r2 =>
      match parse2 r2 with
      | none => none
      | some (mo, r3) =>
        match r3 with
        | '-' :: r4 =>
          match parse2 r4 with
          | none => none
          | some (d, r5) =>
            if 1 ≤ mo && mo ≤ 12 && 1 ≤ d && d ≤ daysInMonth y mo then
              some (y, mo, d, r5)
            else none
        | _ => none
    | _ => none

/-- Parse `HH:MM[:SS[.ffffff]]` with range validation, returning
`(hour, minute, second, microsecond, rest)`. -/
def parseTime (cs : List Char) : Option (Nat × Nat × Nat × Nat × List Char) :=
  match parse2 cs with
  | none => none
  | some (h, r1) =>
    match r1 with
    | ':' :: r2 =>
      match parse2 r2 with
      | none => none
      | some (mi, r3) =>
        if h ≤ 23 && mi ≤ 59 then
          match r3 with
          | ':' :: r4 =>
            match parse2 r4 with
            | none => none
            | some (se, r5) =>
              if se ≤ 59 then
                match r5 with
                | '.' :: r6 =>
                  match takeDigits r6 with
                  | ([], _) => none
                  | (ds, r7) => some (h, mi, se, microOfDigits ds, r7)
                | _ => some (h, mi, se, 0, r5)
              else none
          | _ => some (h, mi, 0, 0, r3)
        else none
    | _ => none

/-- Parse a trailing UTC-offset designator. The whole rest of the input must
be consumed. `none` inside the result means no offset was present. -/
def parseOffset (cs : List Char) : Option (Option Int) :=
  match cs with
  | [] => some none
  | ['Z'] => some (some 0)
  | ['z'] => some (some 0)
  | sign :: r1 =>
    if sign = '+' || sign = '-' then
      match parse2 r1 with
      | none => none
      | some (oh, r2) =>
        let finish (oh om : Nat) : Option (Option Int) :=
          if oh ≤ 23 && om ≤ 59 then
            let total : Int := Int.ofNat (60 * oh + om)
            some (some (if sign = '-' then -total else total))
          else none
        match r2 with
        | [] => finish oh 0
        | ':' :: r3 =>
          match parse2 r3 with
          | some (om, []) => finish oh om
          | _ => none
        | _ =>
          match parse2 r2 with
          | some (om, []) => finish oh om
          | _ => none
    else none

/-- ISO-8601 timestamp parsing as pydantic performs it for a `datetime`
field given a string: a date, then optionally a `T`/`t`/space separator,
a time, and an optional UTC offset. A bare date parses to naive midnight. -/
def parseDatetime (s : String) : Option PyDateTime :=
  match parseDate s.toList with
  | none => none
  | some (y, mo, d, rest) =>
    match rest with
    | [] => some ⟨y, mo, d, 0, 0, 0, 0, none⟩
    | sep :: r2 =>
      if sep = 'T' || sep = 't' || sep = ' ' then
        match parseTime r2 with
        | none => none
        | some (h, mi, se, us, r3) =>
          match parseOffset r3 with
          | none => none
          | some off => some ⟨y, mo, d, h, mi, se, us, off⟩
      else none

/-- One entry of pydantic's `ValidationError.errors()`, restricted to the
parts the specification speaks about: the field (`loc`) and the error kind
(pydantic's `type` string). -/
structure ErrorDetail where
  loc : String
  etype : String
deriving DecidableEq, Repr

/-- `CardTransaction.not_empty` (`models.py`): reject a string that is empty
or whitespace-only (`if not v or not v.strip()`). -/
def not_empty (v : String) : Except String String :=
  if v == "" || pyStrip v == "" then .error "must be non-empty" else .ok v

/-- `CardTransaction.ensure_utc` (`models.py`): reject a parsed timestamp
whose `tzinfo` is `None` or whose UTC offset differs from zero
(`if v.tzinfo is None or v.utcoffset() != timezone.utc.utcoffset(v)`). -/
def ensure_utc (v : PyDateTime) : Except String PyDateTime :=
  if v.offset.isNone || !(v.offset == some 0) then
    .error "created_at must be a UTC timestamp"
  else .ok v

/-- Pipeline for `id` / `organization_id`: `Field(min_length=1)` (pydantic
kind `string_too_short`) and then the `not_empty` validator (kind
`value_error`); the first failure within the field wins. -/
def validateNonEmptyField (field : String) (v : String) : Except ErrorDetail String :=
  if v.length < 1 then .error ⟨field, "string_too_short"⟩
  else
    match not_empty v with
    | .error _ => .error ⟨field, "value_error"⟩
    | .ok w => .ok w

/-- Pipeline for `amount`: lax string-to-int coercion (pydantic kind
`int_parsing`) and then `Field(ge=0)` (kind `greater_than_equal`). -/
def validateAmount (v : String) : Except ErrorDetail Int :=
  match parseIntStr v with
  | none => .error ⟨"amount", "int_parsing"⟩
  | some n => if n < 0 then .error ⟨"amount", "greater_than_equal"⟩ else .ok n

/-- Pipeline for `currency`: `Literal["EUR", "USD", "GBP"]`
(pydantic kind `literal_error`), case-sensitive exact match. -/
def validateCurrency (v : String) : Except ErrorDetail String :=
  if v == "EUR" || v == "USD" || v == "GBP" then .ok v
  else .error ⟨"currency", "literal_error"⟩

/-- Pipeline for `status`: `Literal["Success", "Error", "Pending"]`
(pydantic kind `literal_error`), case-sensitive exact match. -/
def validateStatus (v : String) : Except ErrorDetail String :=
  if v == "Success" || v == "Error" || v == "Pending" then .ok v
  else .error ⟨"status", "literal_error"⟩

/-- Pipeline for `created_at`: ISO-8601 parsing (pydantic kind
`datetime_from_date_parsing` when the string does not parse) and then the
`ensure_utc` validator (kind `value_error`). -/
def validateCreatedAt (v : String) : Except ErrorDetail PyDateTime :=
  match parseDatetime v with
  | none => .error ⟨"created_at", "datetime_from_date_parsing"⟩
  | some d =>
    match ensure_utc d with
    | .error _ => .error ⟨"created_at", "value_error"⟩
    | .ok w => .ok w

/-- A raw CSV row as `csv.DictReader` hands it to `validate_record`:
an ordered field-name-to-string mapping. -/
abbrev RawRow := List (String × String)

/-- Dictionary lookup on a raw row (first matching key). -/
def fieldValue (row : RawRow) (key : String) : Option String :=
  row.lookup key

/-- Run one field's validation pipeline on a row: a missing key is
pydantic's `missing` error, otherwise the pipeline is applied to the value. -/
def runField {α : Type} (row : RawRow) (key : String)
    (f : String → Except ErrorDetail α) : Except ErrorDetail α :=
  match fieldValue row key with
  | none => .error ⟨key, "missing"⟩
  | some v => f v

/-- The validated `CardTransaction` model (`models.py`): string fields kept
as the literal strings that passed, `amount` coerced to an integer,
`created_at` coerced to a parsed timestamp. -/
structure CardTransaction where
  id : String
  organization_id : String
  amount : Int
  currency : String
  status : String
  created_at : PyDateTime
deriving DecidableEq, Repr

/-- Result of the `id` field pipeline on a row. -/
def idResult (row : RawRow) : Except ErrorDetail String :=
  runField row "id" (validateNonEmptyField "id")

/-- Result of the `organization_id` field pipeline on a row. -/
def orgResult (row : RawRow) : Except ErrorDetail String :=
  runField row "organization_id" (validateNonEmptyField "organization_id")

/-- Result of the `amount` field pipeline on a row. -/
def amountResult (row : RawRow) : Except ErrorDetail Int :=
  runField row "amount" validateAmount

/-- Result of the `currency` field pipeline on a row. -/
def currencyResult (row : RawRow) : Except ErrorDetail String :=
  runField row "currency" validateCurrency

/-- Result of the `status` field pipeline on a row. -/
def statusResult (row : RawRow) : Except ErrorDetail String :=
  runField row "status" validateStatus

/-- Result of the `created_at` field pipeline on a row. -/
def createdAtResult (row : RawRow) : Except ErrorDetail PyDateTime :=
  runField row "created_at" validateCreatedAt

/-- The error contribution of one field result: nothing on success, the
single collected `ErrorDetail` on failure. -/
def errsOf {α : Type} : Except ErrorDetail α → List ErrorDetail
  | .ok _ => []
  | .error e => [e]

/-- All field errors of a row, concatenated in pydantic's field
declaration order. -/
def fieldErrs (row : RawRow) : List ErrorDetail :=
  errsOf (idResult row) ++ errsOf (orgResult row) ++ errsOf (amountResult row) ++
    errsOf (currencyResult row) ++ errsOf (statusResult row) ++ errsOf (createdAtResult row)

/-- `CardTransaction.model_validate(raw)`: every field is validated
independently; if all succeed the model is constructed, otherwise the
collected errors of all failing fields are raised as a `ValidationError`. -/
def model_validate (row : RawRow) : Except (List ErrorDetail) CardTransaction :=
  match idResult row, orgResult row, amountResult row,
        currencyResult row, statusResult row, createdAtResult row with
  | .ok i, .ok o, .ok a, .ok c, .ok s, .ok t => .ok ⟨i, o, a, c, s, t⟩
  | _, _, _, _, _, _ => .error (fieldErrs row)

/-- Outcome of `validate_record` (`models.py`): either
`(True, model_instance, None)` or `(False, original_row, errors)`. -/
inductive ValidateResult where
  | ok (model : CardTransaction)
  | err (raw : RawRow) (errors : List ErrorDetail)
deriving DecidableEq, Repr

/-- `validate_record` (`models.py`): try `CardTransaction.model_validate`;
on success return the model, on `ValidationError` return the original row
together with `e.errors()`. -/
def validate_record (raw : RawRow) : ValidateResult :=
  match model_validate raw with
  | .ok obj => .ok obj
  | .error es => .err raw es

/-- Lowercase hexadecimal digit for `n < 16`. -/
def hexDigit (n : Nat) : Char :=
  if n < 10 then Char.ofNat (48 + n) else Char.ofNat (87 + n)

/-- Four lowercase hexadecimal digits, as Python's `\u` escapes use. -/
def hex4 (n : Nat) : String :=
  String.mk [hexDigit (n / 4096 % 16), hexDigit (n / 256 % 16),
             hexDigit (n / 16 % 16), hexDigit (n % 16)]

/-- Escape one character as `json.dumps` (default `ensure_ascii=True`)
renders it inside a JSON string. -/
def jsonEscapeChar (c : Char) : String :=
  if c = '"' then "\\\""
  else if c = '\\' then "\\\\"
  else if c = '\n' then "\\n"
  else if c = '\t' then "\\t"
  else if c = '\r' then "\\r"
  else if c = '\x08' then "\\b"
  else if c = '\x0c' then "\\f"
  else if c.toNat < 32 then "\\u" ++ hex4 c.toNat
  else if c.toNat ≤ 127 then String.mk [c]
  else if c.toNat < 65536 then "\\u" ++ hex4 c.toNat
  else
    "\\u" ++ hex4 (55296 + (c.toNat - 65536) / 1024) ++
      "\\u" ++ hex4 (56320 + (c.toNat - 65536) % 1024)

/-- A JSON string literal for `s`, as `json.dumps` renders it. -/
def jsonStr (s : String) : String :=
  "\"" ++ String.join (s.toList.map jsonEscapeChar) ++ "\""

/-- Two-digit zero-padded decimal. -/
def pad2 (n : Nat) : String :=
  if n < 10 then "0" ++ toString n else toString n

/-- Four-digit zero-padded decimal. -/
def pad4 (n : Nat) : String :=
  (if n < 10 then "000" else if n < 100 then "00" else if n < 1000 then "0" else "") ++
    toString n

/-- Six-digit zero-padded decimal (microseconds). -/
def pad6 (n : Nat) : String :=
  (if n < 10 then "00000" else if n < 100 then "0000" else if n < 1000 then "000"
   else if n < 10000 then "00" else if n < 100000 then "0" else "") ++ toString n

/-- Render a UTC offset the way pydantic's JSON mode does: nothing for a
naive timestamp, the `Z` designator for UTC, `±HH:MM` otherwise. -/
def renderOffset : Option Int → String
  | none => ""
  | some o =>
    if o = 0 then "Z"
    else
      (if o < 0 then "-" else "+") ++
        pad2 (o.natAbs / 60) ++ ":" ++ pad2 (o.natAbs % 60)

/-- Render a `PyDateTime` as the ISO-8601 string pydantic's
`model_dump(mode="json")` produces for a `datetime` field. -/
def renderDatetime (d : PyDateTime) : String :=
  pad4 d.year ++ "-" ++ pad2 d.month ++ "-" ++ pad2 d.day ++ "T" ++
    pad2 d.hour ++ ":" ++ pad2 d.minute ++ ":" ++ pad2 d.second ++
    (if d.microsecond = 0 then "" else "." ++ pad6 d.microsecond) ++
    renderOffset d.offset

/-- `json.dumps(value.model_dump(mode="json"))` for a validated model: one
JSON object with the six fields in declaration order. -/
def dumpValidLine (t : CardTransaction) : String :=
  "\x7b\"id\": " ++ jsonStr t.id ++
    ", \"organization_id\": " ++ jsonStr t.organization_id ++
    ", \"amount\": " ++ toString t.amount ++
    ", \"currency\": " ++ jsonStr t.currency ++
    ", \"status\": " ++ jsonStr t.status ++
    ", \"created_at\": " ++ jsonStr (renderDatetime t.created_at) ++ "\x7d"

/-- `json.dumps` of a raw row dictionary, keys in insertion order. -/
def dumpRow (row : RawRow) : String :=
  "\x7b" ++
    String.intercalate ", " (row.map (fun kv => jsonStr kv.1 ++ ": " ++ jsonStr kv.2)) ++
    "\x7d"

/-- `json.dumps` of one entry of `e.errors()`, restricted to the modelled
parts (the error kind and the field location). -/
def dumpError (e : ErrorDetail) : String :=
  "\x7b\"type\": " ++ jsonStr e.etype ++ ", \"loc\": [" ++ jsonStr e.loc ++ "]\x7d"

/-- `json.dumps({"row": row, "errors": errors})` for a rejected row. -/
def dumpInvalidLine (row : RawRow) (errors : List ErrorDetail) : String :=
  "\x7b\"row\": " ++ dumpRow row ++
    ", \"errors\": [" ++ String.intercalate ", " (errors.map dumpError) ++ "]\x7d"

/-- One iteration of the handler's row loop (`app.py`): validate the row and
append the serialized line to the valid or the invalid accumulator. -/
def routeRow (acc : List String × List String) (row : RawRow) :
    List String × List String :=
  match validate_record row with
  | .ok value => (acc.1 ++ [dumpValidLine value], acc.2)
  | .err _ errors => (acc.1, acc.2 ++ [dumpInvalidLine row errors])

/-- The handler's row loop over the whole batch: starting from two empty
accumulators, route every row in file order. -/
def processRows (rows : List RawRow) : List String × List String :=
  rows.foldl routeRow ([], [])

/-- The valid-stream line a row contributes, if it validates. -/
def validLine (row : RawRow) : Option String :=
  match validate_record row with
  | .ok value => some (dumpValidLine value)
  | .err _ _ => none

/-- The invalid-stream line a row contributes, if it fails validation. -/
def invalidLine (row : RawRow) : Option String :=
  match validate_record row with
  | .ok _ => none
  | .err _ errors => some (dumpInvalidLine row errors)

/-- Python `s.endswith(suffix)` (by code points). -/
def pyEndsWith (s suffix : String) : Bool :=
  suffix.toList.isSuffixOf s.toList

/-- Python `s[:-n]` for `n` ≤ length (by code points). -/
def pyDropRight (s : String) (n : Nat) : String :=
  String.mk (s.toList.take (s.toList.length - n))

/-- `_build_output_keys` (`app.py`): reject an input key that does not end
in `.csv`, otherwise strip that suffix and append `_valid.jsonl` and
`_invalid.jsonl`. -/
def build_output_keys (input_key : String) : Except String (String × String) :=
  if !pyEndsWith input_key ".csv" then
    .error ("Unexpected input key extension (expected .csv): " ++ input_key)
  else
    let base := pyDropRight input_key 4
    .ok (base ++ "_valid.jsonl", base ++ "_invalid.jsonl")

/-- The handler's output-relevant state (`app.py` steps 3 and 4): the two
optional payloads (a payload is written only when its line list is
non-empty), the two derived keys, and the two counts of the result dict. -/
structure HandlerResult where
  valid_payload : Option String
  invalid_payload : Option String
  valid_key : String
  invalid_key : String
  valid_count : Nat
  invalid_count : Nat
deriving DecidableEq, Repr

/-- The core of `handler` (`app.py`) after the rows are read: validate and
partition the rows, derive the output keys (propagating the
unexpected-extension failure), emit each payload only if its accumulator is
non-empty (`if valid_lines:` / `if invalid_lines:`), and report the counts
`len(valid_lines)` and `len(invalid_lines)`. -/
def handlerCore (input_key : String) (rows : List RawRow) :
    Except String HandlerResult :=
  let (valid_lines, invalid_lines) := processRows rows
  match build_output_keys input_key with
  | .error e => .error e
  | .ok (valid_key, invalid_key) =>
    .ok
      { valid_payload :=
          if valid_lines.isEmpty then none
          else some (String.intercalate "\n" valid_lines)
        invalid_payload :=
          if invalid_lines.isEmpty then none
          else some (String.intercalate "\n" invalid_lines)
        valid_key := valid_key
        invalid_key := invalid_key
        valid_count := valid_lines.length
        invalid_count := invalid_lines.length }

/-- A fully valid sample row used to exercise the success path. -/
def c9row : RawRow :=
  [("id", "9"), ("organization_id", "org9"), ("amount", "7"),
   ("currency", "USD"), ("status", "Pending"),
   ("created_at", "2025-01-02T03:04:05Z")]

/-- The handler state for an empty batch with input key `c3.csv`. -/
def c3hr : HandlerResult :=
  ⟨none, none, "c3_valid.jsonl", "c3_invalid.jsonl", 0, 0⟩

/-- The handler state for an empty batch with input key `c8.csv`. -/
def c8hr : HandlerResult :=
  ⟨none, none, "c8_valid.jsonl", "c8_invalid.jsonl", 0, 0⟩

/-- Whether a field result is a failure. -/
def isErrResult {α : Type} : Except ErrorDetail α → Bool
  | .ok _ => false
  | .error _ => true

/-- Number of fields of a row whose validation pipeline fails. -/
def violatedFieldCount (row : RawRow) : Nat :=
  (if isErrResult (idResult row) then 1 else 0) +
    (if isErrResult (orgResult row) then 1 else 0) +
    (if isErrResult (amountResult row) then 1 else 0) +
    (if isErrResult (currencyResult row) then 1 else 0) +
    (if isErrResult (statusResult row) then 1 else 0) +
    (if isErrResult (createdAtResult row) then 1 else 0)

lemma errsOf_length {α : Type} (r : Except ErrorDetail α) :
    (errsOf r).length = if isErrResult r then 1 else 0 := by
  cases r <;> rfl

lemma model_validate_cases (row : RawRow) :
    (fieldErrs row = [] ∧ ∃ t, model_validate row = .ok t) ∨
    (fieldErrs row ≠ [] ∧ model_validate row = .error (fieldErrs row)) := by
  unfold model_validate fieldErrs
  cases h1 : idResult row <;> cases h2 : orgResult row <;>
    cases h3 : amountResult row <;> cases h4 : currencyResult row <;>
    cases h5 : statusResult row <;> cases h6 : createdAtResult row <;>
    simp [errsOf]

lemma fieldErrs_length (row : RawRow) :
    (fieldErrs row).length = violatedFieldCount row := by
  simp only [fieldErrs, violatedFieldCount, List.length_append, errsOf_length]

lemma foldl_routeRow (rows : List RawRow) (v i : List String) :
    rows.foldl routeRow (v, i) =
      (v ++ rows.filterMap validLine, i ++ rows.filterMap invalidLine) := by
  induction rows generalizing v i with
  | nil => simp
  | cons r rs ih =>
    simp only [List.foldl_cons, List.filterMap_cons]
    cases h : validate_record r with
    | ok t => simp [routeRow, validLine, invalidLine, h, ih]
    | err rr es => simp [routeRow, validLine, invalidLine, h, ih]

lemma processRows_eq (rows : List RawRow) :
    processRows rows = (rows.filterMap validLine, rows.filterMap invalidLine) := by
  simpa [processRows] using foldl_routeRow rows [] []

lemma filterMap_lines_length (rows : List RawRow) :
    (rows.filterMap validLine).length + (rows.filterMap invalidLine).length =
      rows.length := by
  induction rows with
  | nil => rfl
  | cons r rs ih =>
    cases h : validate_record r <;> simp [validLine, invalidLine, h] <;> omega

lemma ensure_utc_ok {d w : PyDateTime} (h : ensure_utc d = .ok w) :
    w = d ∧ d.offset = some 0 := by
  unfold ensure_utc at h
  cases ho : d.offset with
  | none => rw [ho] at h; simp at h
  | some o =>
    rw [ho] at h
    by_cases h0 : o = 0
    · subst h0; simp at h; exact ⟨h.symm, rfl⟩
    · simp [h0] at h

lemma ensure_utc_error {d : PyDateTime} {e : String} (h : ensure_utc d = .error e) :
    d.offset ≠ some 0 := by
  intro ho
  unfold ensure_utc at h
  rw [ho] at h
  simp at h

lemma validateCreatedAt_ok {v : String} {d : PyDateTime} :
    validateCreatedAt v = .ok d ↔ parseDatetime v = some d ∧ d.offset = some 0 := by
  unfold validateCreatedAt
  cases hp : parseDatetime v with
  | none => simp
  | some w =>
    cases he : ensure_utc w with
    | error e =>
      simp only [he]
      simp only [Except.error.injEq, Except.ok.injEq, Option.some.injEq]
      constructor
      · intro hcontra; cases hcontra
      · rintro ⟨rfl, hoff⟩
        exact absurd hoff (ensure_utc_error he)
    | ok w2 =>
      obtain ⟨rfl, hoff⟩ := ensure_utc_ok he
      simp only [he]
      simp only [Except.ok.injEq, Option.some.injEq]
      constructor
      · rintro rfl; exact ⟨rfl, hoff⟩
      · rintro ⟨rfl, _⟩; rfl

lemma model_validate_ok_created {row : RawRow} {t : CardTransaction}
    (h : model_validate row = .ok t) : createdAtResult row = .ok t.created_at := by
  unfold model_validate at h
  cases h1 : idResult row <;> rw [h1] at h <;>
    cases h2 : orgResult row <;> rw [h2] at h <;>
    cases h3 : amountResult row <;> rw [h3] at h <;>
    cases h4 : currencyResult row <;> rw [h4] at h <;>
    cases h5 : statusResult row <;> rw [h5] at h <;>
    cases h6 : createdAtResult row <;> rw [h6] at h <;>
    simp_all
  subst h
  rfl

lemma validate_record_ok_offset {row : RawRow} {t : CardTransaction}
    (h : validate_record row = .ok t) : t.created_at.offset = some 0 := by
  unfold validate_record at h
  cases hm : model_validate row with
  | error es => rw [hm] at h; cases h
  | ok obj =>
    rw [hm] at h
    cases h
    have hc := model_validate_ok_created hm
    unfold createdAtResult runField at hc
    cases hv : fieldValue row "created_at" with
    | none => rw [hv] at hc; cases hc
    | some v =>
      rw [hv] at hc
      exact (validateCreatedAt_ok.mp hc).2

lemma length_pos_of_pyStrip_ne {v : String} (h : pyStrip v ≠ "") :
    ¬ v.length < 1 := by
  cases v with
  | mk data =>
    cases data with
    | nil => exact absurd rfl h
    | cons a l => simp [String.length]

lemma validateNonEmptyField_ok {field v : String} (h : pyStrip v ≠ "") :
    validateNonEmptyField field v = .ok v := by
  have hne : v ≠ "" := fun e => h (by rw [e]; rfl)
  unfold validateNonEmptyField not_empty
  simp [length_pos_of_pyStrip_ne h, hne, h]

lemma pyEndsWith_append_Z (s : String) : pyEndsWith (s ++ "Z") "Z" = true := by
  unfold pyEndsWith
  show List.isSuffixOf ['Z'] (s.toList ++ ['Z']) = true
  simp [List.isSuffixOf, List.isPrefixOf]

lemma renderDatetime_endsWith_Z {d : PyDateTime} (h : d.offset = some 0) :
    pyEndsWith (renderDatetime d) "Z" = true := by
  have hZ : renderOffset d.offset = "Z" := by rw [h]; rfl
  unfold renderDatetime
  rw [hZ]
  exact pyEndsWith_append_Z _

/-- C1: a `RawRow` whose six fields each satisfy their rule of §4.1
(non-blank `id` and `organization_id`, integer `amount` ≥ 0, `currency` in
the three-element enum, `status` in the three-element enum, parseable
`created_at` with UTC offset zero) validates successfully, with the string
fields passed through unchanged, `amount` coerced to the parsed integer,
and `created_at` coerced to the parsed timezone-aware timestamp. -/
theorem C1_valid_row_validates (row : RawRow)
    (vi vo va vc vs vt : String) (n : Int) (d : PyDateTime)
    (hvi : fieldValue row "id" = some vi)
    (hvo : fieldValue row "organization_id" = some vo)
    (hva : fieldValue row "amount" = some va)
    (hvc : fieldValue row "currency" = some vc)
    (hvs : fieldValue row "status" = some vs)
    (hvt : fieldValue row "created_at" = some vt)
    (hid : pyStrip vi ≠ "")
    (horg : pyStrip vo ≠ "")
    (hamt : parseIntStr va = some n) (hge : 0 ≤ n)
    (hcur : vc = "EUR" ∨ vc = "USD" ∨ vc = "GBP")
    (hst : vs = "Success" ∨ vs = "Error" ∨ vs = "Pending")
    (hca : parseDatetime vt = some d) (hutc : d.offset = some 0) :
    validate_record row = .ok ⟨vi, vo, n, vc, vs, d⟩ := by
  have h1 : idResult row = .ok vi := by
    unfold idResult runField
    rw [hvi]
    exact validateNonEmptyField_ok hid
  have h2 : orgResult row = .ok vo := by
    unfold orgResult runField
    rw [hvo]
    exact validateNonEmptyField_ok horg
  have h3 : amountResult row = .ok n := by
    unfold amountResult runField
    rw [hva]
    show validateAmount va = Except.ok n
    unfold validateAmount
    rw [hamt]
    simp [not_lt.mpr hge]
  have h4 : currencyResult row = .ok vc := by
    unfold currencyResult runField
    rw [hvc]
    show validateCurrency vc = Except.ok vc
    unfold validateCurrency
    rcases hcur with rfl | rfl | rfl <;> simp
  have h5 : statusResult row = .ok vs := by
    unfold statusResult runField
    rw [hvs]
    show validateStatus vs = Except.ok vs
    unfold validateStatus
    rcases hst with rfl | rfl | rfl <;> simp
  have h6 : createdAtResult row = .ok d := by
    unfold createdAtResult runField
    rw [hvt]
    exact validateCreatedAt_ok.mpr ⟨hca, hutc⟩
  unfold validate_record model_validate
  rw [h1, h2, h3, h4, h5, h6]

/-- Witness for C1: the spec's concrete example row validates to the
expected canonical transaction. -/
theorem C1_witness :
    validate_record
        [("id", "1"), ("organization_id", "org1"), ("amount", "100"),
         ("currency", "EUR"), ("status", "Success"),
         ("created_at", "2025-11-10T10:00:00+00:00")] =
      .ok ⟨"1", "org1", 100, "EUR", "Success",
           ⟨2025, 11, 10, 10, 0, 0, 0, some 0⟩⟩ :=
  C1_valid_row_validates _ "1" "org1" "100" "EUR" "Success"
    "2025-11-10T10:00:00+00:00" 100 ⟨2025, 11, 10, 10, 0, 0, 0, some 0⟩
    (by decide) (by decide) (by decide) (by decide) (by decide) (by decide)
    (by decide) (by decide) (by decide) (by decide) (by decide) (by decide)
    (by decide) (by decide)

/-- C2: a `RawRow` with at least one violated field fails validation; the
failure carries the original row and a non-empty error list with exactly
one entry per violated field (all fields checked, none short-circuited,
errors in field declaration order). -/
theorem C2_invalid_row_errors (row : RawRow) (h : fieldErrs row ≠ []) :
    validate_record row = .err row (fieldErrs row) ∧
    (fieldErrs row).length = violatedFieldCount row := by
  rcases model_validate_cases row with ⟨h0, t, hm⟩ | ⟨h0, hm⟩
  · exact absurd h0 h
  · exact ⟨by unfold validate_record; rw [hm], fieldErrs_length row⟩

/-- Witness for C2: the spec's concrete bad row fails with exactly the five
expected errors (empty id, negative amount, invalid currency, invalid
status, missing UTC offset). -/
theorem C2_witness :
    validate_record
        [("id", ""), ("organization_id", "org1"), ("amount", "-5"),
         ("currency", "XXX"), ("status", "Done"),
         ("created_at", "2025-11-10T10:00:00")] =
      .err
        [("id", ""), ("organization_id", "org1"), ("amount", "-5"),
         ("currency", "XXX"), ("status", "Done"),
         ("created_at", "2025-11-10T10:00:00")]
        [⟨"id", "string_too_short"⟩, ⟨"amount", "greater_than_equal"⟩,
         ⟨"currency", "literal_error"⟩, ⟨"status", "literal_error"⟩,
         ⟨"created_at", "value_error"⟩] ∧
    (fieldErrs
        [("id", ""), ("organization_id", "org1"), ("amount", "-5"),
         ("currency", "XXX"), ("status", "Done"),
         ("created_at", "2025-11-10T10:00:00")]).length = 5 := by
  have h := C2_invalid_row_errors
    [("id", ""), ("organization_id", "org1"), ("amount", "-5"),
     ("currency", "XXX"), ("status", "Done"),
     ("created_at", "2025-11-10T10:00:00")] (by decide)
  have he : fieldErrs
      [("id", ""), ("organization_id", "org1"), ("amount", "-5"),
       ("currency", "XXX"), ("status", "Done"),
       ("created_at", "2025-11-10T10:00:00")] =
      [⟨"id", "string_too_short"⟩, ⟨"amount", "greater_than_equal"⟩,
       ⟨"currency", "literal_error"⟩, ⟨"status", "literal_error"⟩,
       ⟨"created_at", "value_error"⟩] := by decide
  refine ⟨?_, ?_⟩
  · rw [← he]
    exact h.1
  · rw [he]
    rfl

/-- C3: the partition is complete — every input row lands in exactly one of
the two output sequences, so the valid and invalid line counts sum to the
number of input rows, and the handler's reported `valid_count` and
`invalid_count` are the lengths of those sequences. -/
theorem C3_partition_complete (rows : List RawRow) :
    (processRows rows).1.length + (processRows rows).2.length = rows.length ∧
    ∀ k hr, handlerCore k rows = .ok hr →
      hr.valid_count = (processRows rows).1.length ∧
      hr.invalid_count = (processRows rows).2.length := by
  constructor
  · rw [processRows_eq]
    exact filterMap_lines_length rows
  · intro k hr h
    unfold handlerCore at h
    cases hp : processRows rows with
    | mk vl il =>
      rw [hp] at h
      cases hb : build_output_keys k with
      | error e => rw [hb] at h; simp at h
      | ok p =>
        obtain ⟨vk, ik⟩ := p
        rw [hb] at h
        simp only [Except.ok.injEq] at h
        subst h
        simp

/-- Witness for C3 on an empty batch with key `c3.csv`. -/
theorem C3_witness :
    (processRows []).1.length + (processRows []).2.length = ([] : List RawRow).length ∧
    (c3hr.valid_count = (processRows []).1.length ∧
     c3hr.invalid_count = (processRows []).2.length) :=
  ⟨(C3_partition_complete []).1,
   (C3_partition_complete []).2 "c3.csv" c3hr rfl⟩

/-- C4: both output sequences preserve the relative input order of their
source rows — the valid stream is exactly the in-order `filterMap` of the
rows that validate, and the invalid stream is exactly the in-order
`filterMap` of the rows that fail. -/
theorem C4_order_preserved (rows : List RawRow) :
    (processRows rows).1 = rows.filterMap validLine ∧
    (processRows rows).2 = rows.filterMap invalidLine := by
  rw [processRows_eq]
  exact ⟨rfl, rfl⟩

/-- Witness for C4 on a two-row batch: one valid and one invalid row, each
appearing in its stream. -/
theorem C4_witness :
    (processRows [c9row, []]).1 = [c9row, ([] : RawRow)].filterMap validLine ∧
    (processRows [c9row, []]).2 = [c9row, ([] : RawRow)].filterMap invalidLine :=
  C4_order_preserved [c9row, []]

/-- C5: validation of `created_at` fails with the parse-error kind when the
value is not parseable as an ISO-8601 timestamp, fails with the
`ensure_utc` value error when it parses with a missing or non-zero UTC
offset, and succeeds exactly when the value parses with an explicit offset
equal to UTC. -/
theorem C5_created_at_rules (v : String) :
    (parseDatetime v = none →
      validateCreatedAt v = .error ⟨"created_at", "datetime_from_date_parsing"⟩) ∧
    (∀ d, parseDatetime v = some d → d.offset ≠ some 0 →
      validateCreatedAt v = .error ⟨"created_at", "value_error"⟩) ∧
    (∀ d, validateCreatedAt v = .ok d ↔ parseDatetime v = some d ∧ d.offset = some 0) := by
  refine ⟨?_, ?_, fun d => validateCreatedAt_ok⟩
  · intro hp
    unfold validateCreatedAt
    rw [hp]
  · intro d hp hoff
    unfold validateCreatedAt
    simp only [hp]
    cases he : ensure_utc d with
    | error e => simp [he]
    | ok w => exact absurd (ensure_utc_ok he).2 hoff

/-- Witness for C5: a timestamp without offset is rejected by the timezone
rule, an unparseable string by the format rule, and a `Z`-suffixed
timestamp is accepted. -/
theorem C5_witness :
    validateCreatedAt "2025-11-10T10:00:00" = .error ⟨"created_at", "value_error"⟩ ∧
    validateCreatedAt "not-a-date" = .error ⟨"created_at", "datetime_from_date_parsing"⟩ ∧
    validateCreatedAt "2025-11-10T10:00:00Z" = .ok ⟨2025, 11, 10, 10, 0, 0, 0, some 0⟩ :=
  ⟨(C5_created_at_rules "2025-11-10T10:00:00").2.1
      ⟨2025, 11, 10, 10, 0, 0, 0, none⟩ (by decide) (by decide),
   (C5_created_at_rules "not-a-date").1 (by decide),
   ((C5_created_at_rules "2025-11-10T10:00:00Z").2.2
      ⟨2025, 11, 10, 10, 0, 0, 0, some 0⟩).mpr ⟨by decide, by decide⟩⟩

/-- C6: deriving the output keys fails exactly when the input key does not
end in `.csv`; otherwise it strips the suffix and appends `_valid.jsonl`
and `_invalid.jsonl`. -/
theorem C6_output_keys (k : String) :
    ((∃ msg, build_output_keys k = .error msg) ↔ pyEndsWith k ".csv" = false) ∧
    (pyEndsWith k ".csv" = true →
      build_output_keys k =
        .ok (pyDropRight k 4 ++ "_valid.jsonl", pyDropRight k 4 ++ "_invalid.jsonl")) := by
  unfold build_output_keys
  cases h : pyEndsWith k ".csv" <;> simp [h]

/-- Witness for C6 at the spec's two concrete keys. -/
theorem C6_witness :
    build_output_keys "a/b/card_transaction_2025-11-10.csv" =
      .ok ("a/b/card_transaction_2025-11-10_valid.jsonl",
           "a/b/card_transaction_2025-11-10_invalid.jsonl") ∧
    (∃ msg, build_output_keys "a/b/file.txt" = .error msg) := by
  constructor
  · have h := (C6_output_keys "a/b/card_transaction_2025-11-10.csv").2 (by decide)
    exact h.trans rfl
  · exact (C6_output_keys "a/b/file.txt").1.mpr (by decide)

/-- C7: the validator never alters the row it is given — on the failure
path `validate_record` returns the original raw field-to-string mapping
verbatim, with no coercion and no field changed, and the rejected-row
record serialized for the invalid stream is built from that unchanged
mapping. (The embedding is a pure function of the row, so the success path
cannot mutate it either.) -/
theorem C7_raw_row_preserved (row : RawRow) :
    ∀ r es, validate_record row = .err r es →
      r = row ∧ invalidLine row = some (dumpInvalidLine row es) := by
  intro r es h
  unfold validate_record at h
  cases hm : model_validate row with
  | ok obj => rw [hm] at h; cases h
  | error es2 =>
    rw [hm] at h
    cases h
    refine ⟨rfl, ?_⟩
    unfold invalidLine validate_record
    rw [hm]

/-- Witness for C7: a row with every field missing is returned verbatim in
the rejection, and its invalid-stream line embeds the unchanged row. -/
theorem C7_witness :
    ([] : RawRow) = [] ∧
    invalidLine [] =
      some (dumpInvalidLine []
        [⟨"id", "missing"⟩, ⟨"organization_id", "missing"⟩, ⟨"amount", "missing"⟩,
         ⟨"currency", "missing"⟩, ⟨"status", "missing"⟩, ⟨"created_at", "missing"⟩]) :=
  C7_raw_row_preserved [] []
    [⟨"id", "missing"⟩, ⟨"organization_id", "missing"⟩, ⟨"amount", "missing"⟩,
     ⟨"currency", "missing"⟩, ⟨"status", "missing"⟩, ⟨"created_at", "missing"⟩]
    (by decide)

/-- C8: an empty output sequence yields an absent payload, not an empty
one — the handler's valid payload is `none` exactly when zero rows are
valid, the invalid payload is `none` exactly when zero rows are invalid,
and a zero-row input gives both payloads absent and both counts zero. -/
theorem C8_empty_outputs_absent (k : String) (rows : List RawRow)
    (hr : HandlerResult) (h : handlerCore k rows = .ok hr) :
    (hr.valid_count = 0 ↔ hr.valid_payload = none) ∧
    (hr.invalid_count = 0 ↔ hr.invalid_payload = none) ∧
    (rows = [] → hr.valid_payload = none ∧ hr.invalid_payload = none ∧
      hr.valid_count = 0 ∧ hr.invalid_count = 0) := by
  unfold handlerCore at h
  cases hp : processRows rows with
  | mk vl il =>
    rw [hp] at h
    cases hb : build_output_keys k with
    | error e => rw [hb] at h; simp at h
    | ok p =>
      obtain ⟨vk, ik⟩ := p
      rw [hb] at h
      simp only [Except.ok.injEq] at h
      subst h
      refine ⟨?_, ?_, ?_⟩
      · cases vl <;> simp
      · cases il <;> simp
      · rintro rfl
        have h0 : processRows ([] : List RawRow) = ([], []) := rfl
        rw [h0] at hp
        cases hp
        simp

/-- Witness for C8 on an empty batch with key `c8.csv`. -/
theorem C8_witness :
    (c8hr.valid_count = 0 ↔ c8hr.valid_payload = none) ∧
    (c8hr.invalid_count = 0 ↔ c8hr.invalid_payload = none) ∧
    (([] : List RawRow) = [] → c8hr.valid_payload = none ∧
      c8hr.invalid_payload = none ∧ c8hr.valid_count = 0 ∧ c8hr.invalid_count = 0) :=
  C8_empty_outputs_absent "c8.csv" [] c8hr rfl

/-- C9: every line of the valid output stream is the JSON object serialized
from a validated transaction whose `created_at` carries UTC offset zero, so
its rendered `created_at` string ends in the explicit UTC designator `Z`. -/
theorem C9_valid_lines_utc (rows : List RawRow) (line : String)
    (h : line ∈ (processRows rows).1) :
    ∃ row t, row ∈ rows ∧ validate_record row = .ok t ∧
      line = dumpValidLine t ∧ t.created_at.offset = some 0 ∧
      pyEndsWith (renderDatetime t.created_at) "Z" = true := by
  rw [processRows_eq] at h
  obtain ⟨row, hrow, hline⟩ := List.mem_filterMap.mp h
  unfold validLine at hline
  cases hv : validate_record row with
  | err r es => rw [hv] at hline; cases hline
  | ok t =>
    rw [hv] at hline
    simp only [Option.some.injEq] at hline
    have hoff := validate_record_ok_offset hv
    exact ⟨row, t, hrow, hv, hline.symm, hoff, renderDatetime_endsWith_Z hoff⟩

/-- Witness for C9: the one valid line of a singleton batch comes from its
validated row and renders `created_at` with the `Z` UTC designator. -/
theorem C9_witness :
    ∃ row t, row ∈ [c9row] ∧ validate_record row = .ok t ∧
      "\x7b\"id\": \"9\", \"organization_id\": \"org9\", \"amount\": 7, \"currency\": \"USD\", \"status\": \"Pending\", \"created_at\": \"2025-01-02T03:04:05Z\"\x7d" =
        dumpValidLine t ∧ t.created_at.offset = some 0 ∧
      pyEndsWith (renderDatetime t.created_at) "Z" = true :=
  C9_valid_lines_utc [c9row]
    "\x7b\"id\": \"9\", \"organization_id\": \"org9\", \"amount\": 7, \"currency\": \"USD\", \"status\": \"Pending\", \"created_at\": \"2025-01-02T03:04:05Z\"\x7d"
    (by decide)

/-- C10: `validate_record` is total on arbitrary raw dictionaries (missing
keys, extra keys, any string values) and always returns one of the two
documented shapes: success with a model, or failure carrying the original
input together with a non-empty error list. -/
theorem C10_total_result_shape (row : RawRow) :
    (∃ t, validate_record row = .ok t) ∨
    (∃ es, validate_record row = .err row es ∧ es ≠ []) := by
  rcases model_validate_cases row with ⟨h0, t, hm⟩ | ⟨h0, hm⟩
  · exact .inl ⟨t, by unfold validate_record; rw [hm]⟩
  · exact .inr ⟨fieldErrs row, by unfold validate_record; rw [hm], h0⟩

/-- Witness for C10 at a row carrying only an `id` key. -/
theorem C10_witness :
    (∃ t, validate_record [("id", "w")] = .ok t) ∨
    (∃ es, validate_record [("id", "w")] = .err [("id", "w")] es ∧ es ≠ []) :=
  C10_total_result_shape [("id", "w")]
